import Mathlib

/-!
Verification of the encrypted-DNS front end (`src/services/encryptedDnsService.js`)
of the ndash-bind repository: a shallow embedding of the DNS query processor,
the DoT stream framer, the DoH request router, and the service supervisor,
together with theorems settling the specification's claims about them.

The binary wire codec is provided in the repository by the external `dns-packet`
dependency, which is not part of the repository's own sources; it is modelled
from the specification's Wire Codec contract (spec §4.1).  Everything else is
translated directly from `encryptedDnsService.js`.
-/

namespace NdashBind

/-! ## Data model (spec §3, mirroring the objects built in `encryptedDnsService.js`) -/

/-- Question types the service's `switch` distinguishes (`processDnsQuery`,
lines 221-274): the five supported types, plus any other type string,
which falls into the `default` branch. -/
inductive QType where
  | A
  | AAAA
  | CNAME
  | MX
  | TXT
  | OTHER (s : String)
deriving DecidableEq

/-- A decoded DNS question (`question.name`, `question.type`). -/
structure Question where
  name : String
  qtype : QType
deriving DecidableEq

/-- Resource-record data as built by the service: a plain string for
A/AAAA/CNAME/TXT records, and a `{preference, exchange}` pair for MX. -/
inductive RData where
  | str (s : String)
  | mx (preference : Nat) (exchange : String)
deriving DecidableEq

/-- An answer record exactly as pushed by `processDnsQuery`:
`{name, type, class, ttl, data}`. -/
structure RR where
  name : String
  rtype : QType
  rclass : String
  ttl : Nat
  data : RData
deriving DecidableEq

/-- The fields of a decoded query that `processDnsQuery` reads:
`query.id` and `query.questions` (the decoded `rcode` is overwritten
before it is ever read, so it is not part of the model). -/
structure DnsQuery where
  id : Nat
  questions : List Question
deriving DecidableEq

/-- The two kinds of failure the node `dns` back end can signal when a
`resolveX` call rejects: a clean not-found, or any other internal error.
`processDnsQuery`'s inner `catch` receives both indistinguishably. -/
inductive RErr where
  | notFound
  | internal
deriving DecidableEq

/-- The external resolution capability consumed by `processDnsQuery`:
the five promisified `dns.resolveX` functions it calls. -/
structure Backend where
  resolve4 : String → Except RErr (List String)
  resolve6 : String → Except RErr (List String)
  resolveCname : String → Except RErr (List String)
  resolveMx : String → Except RErr (List (Nat × String))
  resolveTxt : String → Except RErr (List (List String))

/-! ## Wire codec (spec §4.1) -/

/-- `dnsPacket.RECURSION_DESIRED` (bit 8 of the DNS header flags word). -/
def RECURSION_DESIRED : Nat := 256

/-- `dnsPacket.RECURSION_AVAILABLE` (bit 7 of the DNS header flags word). -/
def RECURSION_AVAILABLE : Nat := 128

/-- The response object literal `processDnsQuery` hands to `dnsPacket.encode`:
`{id, type, flags, rcode?, questions, answers}`.  `rcode` is `none` when the
literal carries no `rcode` property (the success-path literal at lines 284-290)
and `some r` when it does (the catch-path literal at lines 297-304). -/
structure ResponseObj where
  id : Nat
  msgType : String
  flags : Nat
  rcode : Option Nat
  questions : List Question
  answers : List RR
deriving DecidableEq

/-- The header fields and sections of the encoded response on the wire. -/
structure WireResponse where
  id : Nat
  qr : Bool
  rd : Bool
  ra : Bool
  rcode : Nat
  questions : List Question
  answers : List RR
deriving DecidableEq

/-- Modelled from the spec: the Wire Codec's `encode` (spec §4.1), which in the
repository is the external `dns-packet` dependency, absent from `src/`.
Per the spec it writes the message's transaction id, marks the message as a
response, derives the recursion flags from the supplied flags word, writes the
message's response code (NOERROR, i.e. 0, when the object supplies none),
mirrors the question section verbatim, and includes exactly the supplied
answers. -/
def encode (o : ResponseObj) : WireResponse :=
  { id := o.id
    qr := o.msgType == "response"
    rd := (o.flags &&& RECURSION_DESIRED) != 0
    ra := (o.flags &&& RECURSION_AVAILABLE) != 0
    rcode := o.rcode.getD 0
    questions := o.questions
    answers := o.answers }

/-! ## Resolution adapter (`processDnsQuery`, lines 218-281) -/

/-- One iteration of the question loop's `switch` (lines 221-275): dispatch on
the question type, call the type-appropriate back-end lookup, and map each
returned record to an answer object with class `IN`, ttl `300`, and
type-appropriate data (TXT chunks are joined with `txt.join('')`).  The
`default` branch produces no answers and no error.  An `.error` value models
the awaited promise rejecting, which the inner `catch` will receive. -/
def resolveQuestion (be : Backend) (q : Question) : Except RErr (List RR) :=
  match q.qtype with
  | .A => (be.resolve4 q.name).map fun records =>
      records.map fun ip =>
        { name := q.name, rtype := .A, rclass := "IN", ttl := 300, data := .str ip }
  | .AAAA => (be.resolve6 q.name).map fun records =>
      records.map fun ip =>
        { name := q.name, rtype := .AAAA, rclass := "IN", ttl := 300, data := .str ip }
  | .CNAME => (be.resolveCname q.name).map fun records =>
      records.map fun cname =>
        { name := q.name, rtype := .CNAME, rclass := "IN", ttl := 300, data := .str cname }
  | .MX => (be.resolveMx q.name).map fun records =>
      records.map fun m =>
        { name := q.name, rtype := .MX, rclass := "IN", ttl := 300, data := .mx m.1 m.2 }
  | .TXT => (be.resolveTxt q.name).map fun records =>
      records.map fun txt =>
        { name := q.name, rtype := .TXT, rclass := "IN", ttl := 300, data := .str (String.join txt) }
  | .OTHER _ => .ok []

/-- The question loop of `processDnsQuery` (lines 216-281): accumulate the
answers of successfully resolved questions; on the first rejected lookup the
inner `catch` sets `query.rcode = 3` and `break`s out of the loop, discarding
the remaining questions.  Returns the accumulated `answers` array together
with the final value of the mutated `query.rcode` field (0 when no lookup
failed, 3 after a failure). -/
def processQuestions (be : Backend) : List Question → List RR × Nat
  | [] => ([], 0)
  | q :: qs =>
    match resolveQuestion be q with
    | .ok rs =>
      let rest := processQuestions be qs
      (rs ++ rest.1, rest.2)
    | .error _ => ([], 3)

/-- The catch-path response literal of `processDnsQuery` (lines 297-304):
`{id: 0, type: 'response', flags: RD | RA, rcode: 2, questions: [], answers: []}`. -/
def errorResponse : ResponseObj :=
  { id := 0
    msgType := "response"
    flags := RECURSION_DESIRED ||| RECURSION_AVAILABLE
    rcode := some 2
    questions := []
    answers := [] }

/-- The body of `processDnsQuery`'s outer `try` (lines 210-292), taking the
result of `dnsPacket.decode` on the raw input: rethrows a decode failure,
otherwise runs the question loop and encodes the success-path response
literal `{id: query.id, type: 'response', flags: RD | RA, questions:
query.questions, answers}` — a literal that carries no `rcode` property,
so the `query.rcode` written by the loop never reaches the encoder. -/
def processBody (be : Backend) (decodeRes : Except Unit DnsQuery) :
    Except Unit WireResponse :=
  decodeRes.map fun query =>
    let result := processQuestions be query.questions
    encode
      { id := query.id
        msgType := "response"
        flags := RECURSION_DESIRED ||| RECURSION_AVAILABLE
        rcode := none
        questions := query.questions
        answers := result.1 }

/-- `processDnsQuery` (lines 209-307): the outer `try`/`catch` — any error
escaping the body is converted into the encoded `errorResponse`. -/
def processDnsQuery (be : Backend) (decodeRes : Except Unit DnsQuery) : WireResponse :=
  match processBody be decodeRes with
  | .ok w => w
  | .error _ => encode errorResponse

/-! ## Stream framer (DoT, `startDoT` lines 156-182) -/

/-- The `while` loop of the DoT data handler (lines 164-177): repeatedly read
the 16-bit big-endian length prefix (`buffer.readUInt16BE(0)` =
`256 * buffer[0] + buffer[1]`), and while a complete `2 + length` frame is
buffered, slice out the payload and advance past it.  Returns the extracted
payloads in order together with the leftover buffer. -/
def drain : List Nat → List (List Nat) × List Nat
  | b0 :: b1 :: rest =>
    if 256 * b0 + b1 ≤ rest.length then
      let parsed := drain (rest.drop (256 * b0 + b1))
      (rest.take (256 * b0 + b1) :: parsed.1, parsed.2)
    else ([], b0 :: b1 :: rest)
  | l => ([], l)
termination_by l => l.length
decreasing_by simp [List.length_drop]; omega

/-- A correctly 2-byte-big-endian-length-prefixed frame around a message. -/
def frame (m : List Nat) : List Nat := m.length / 256 :: m.length % 256 :: m

/-- The per-connection state evolution across `data` events (lines 157-177):
starting from the retained buffer, each chunk is appended
(`Buffer.concat([buffer, data])`) and the framer loop is run, accumulating
the emitted payloads across events and threading the leftover buffer. -/
def feedChunks (buf : List Nat) : List (List Nat) → List (List Nat) × List Nat
  | [] => ([], buf)
  | c :: cs =>
    let step := drain (buf ++ c)
    let rest := feedChunks step.2 cs
    (step.1 ++ rest.1, rest.2)

/-- The buffer retained after the framer loop holds no complete frame: fewer
than 2 bytes, or fewer payload bytes than its length prefix announces. -/
def noCompleteFrame : List Nat → Prop
  | b0 :: b1 :: rest => rest.length < 256 * b0 + b1
  | _ => True

/-- The per-frame processing of the DoT data handler's `try` block
(lines 168-176): each extracted payload is passed to `processDnsQuery`
and the response collected (in source order) for framed write-back.
The `Except` layer models an exception escaping into the handler's
`catch` (lines 178-181), which would end the connection. -/
def respondFrames (be : Backend) (decode : List Nat → Except Unit DnsQuery) :
    List (List Nat) → Except Unit (List WireResponse)
  | [] => .ok []
  | f :: fs => do
    let r := processDnsQuery be (decode f)
    let rest ← respondFrames be decode fs
    .ok (r :: rest)

/-- One complete DoT `data` event (lines 159-182): append the chunk, drain all
complete frames, and process each one; returns the retained buffer and the
responses to write, or an error if processing threw into the `catch`. -/
def dotHandleChunk (be : Backend) (decode : List Nat → Except Unit DnsQuery)
    (buf chunk : List Nat) : Except Unit (List Nat × List WireResponse) :=
  match respondFrames be decode (drain (buf ++ chunk)).1 with
  | .ok rs => .ok ((drain (buf ++ chunk)).2, rs)
  | .error e => .error e

/-! ## Service supervisor (`start`/`stop`/`getStatus`, lines 17-55, 309-321) -/

/-- A JavaScript value as produced by `getStatus`'s `running` expression
`server && server.listening`: `null` when the server handle is null,
otherwise the boolean `listening`. -/
inductive JsVal where
  | null
  | bool (b : Bool)
deriving DecidableEq

/-- A listener handle (`https.createServer` / `tls.createServer` result):
whether it is listening, and the configured port. -/
structure Server where
  listening : Bool
  port : Nat
deriving DecidableEq

/-- The supervisor's mutable fields (`this.dohServer`, `this.dotServer`,
`this.isRunning`), all initially null/false in the constructor. -/
structure SupState where
  dohServer : Option Server := none
  dotServer : Option Server := none
  isRunning : Bool := false
deriving DecidableEq

/-- A listener's configuration together with the environment facts that
determine its startup: whether `fs.existsSync` finds both certificate files,
and whether `listen` on the configured port succeeds (`listening` callback)
or fails (`error` event, rejecting the startup promise). -/
structure ListenerConfig where
  port : Nat
  certsExist : Bool
  listenOk : Bool
deriving DecidableEq

/-- `settings.resolver.doh.enabled` and `settings.resolver.dot.enabled`. -/
structure ResolverSettings where
  dohEnabled : Bool
  dotEnabled : Bool
deriving DecidableEq

/-- `startDoH` (lines 57-135): missing certificates resolve immediately
without creating a server; otherwise the server handle is assigned before
`listen`, so a bind failure leaves a non-listening handle and rejects.
The boolean is `true` when the promise resolved, `false` when it rejected. -/
def startDoH (cfg : ListenerConfig) (s : SupState) : SupState × Bool :=
  if !cfg.certsExist then (s, true)
  else if cfg.listenOk then ({ s with dohServer := some ⟨true, cfg.port⟩ }, true)
  else ({ s with dohServer := some ⟨false, cfg.port⟩ }, false)

/-- `startDoT` (lines 137-207): identical startup shape on `this.dotServer`. -/
def startDoT (cfg : ListenerConfig) (s : SupState) : SupState × Bool :=
  if !cfg.certsExist then (s, true)
  else if cfg.listenOk then ({ s with dotServer := some ⟨true, cfg.port⟩ }, true)
  else ({ s with dotServer := some ⟨false, cfg.port⟩ }, false)

/-- The outcome of `start()`: the resulting field state, whether the outer
`catch` rethrew, and whether each of `startDoH`/`startDoT` was invoked. -/
structure StartResult where
  state : SupState
  threw : Bool
  dohAttempted : Bool
  dotAttempted : Bool
deriving DecidableEq

/-- `start()` (lines 17-35): sequentially `await this.startDoH(...)` when DoH
is enabled, then `await this.startDoT(...)` when DoT is enabled, then set
`isRunning`; the surrounding `try`/`catch` rethrows the first rejection, so a
rejected `startDoH` ends `start()` before `startDoT` is ever invoked. -/
def start (st : ResolverSettings) (dohCfg dotCfg : ListenerConfig)
    (s0 : SupState) : StartResult :=
  if st.dohEnabled then
    let r1 := startDoH dohCfg s0
    if r1.2 then
      if st.dotEnabled then
        let r2 := startDoT dotCfg r1.1
        if r2.2 then ⟨{ r2.1 with isRunning := true }, false, true, true⟩
        else ⟨r2.1, true, true, true⟩
      else ⟨{ r1.1 with isRunning := true }, false, true, false⟩
    else ⟨r1.1, true, true, false⟩
  else
    if st.dotEnabled then
      let r2 := startDoT dotCfg s0
      if r2.2 then ⟨{ r2.1 with isRunning := true }, false, false, true⟩
      else ⟨r2.1, true, false, true⟩
    else ⟨{ s0 with isRunning := true }, false, false, false⟩

/-- The status snapshot returned by `getStatus` (lines 309-321). -/
structure StatusSnapshot where
  isRunning : Bool
  dohRunning : JsVal
  dohPort : Option Nat
  dotRunning : JsVal
  dotPort : Option Nat
deriving DecidableEq

/-- `getStatus` (lines 309-321): `running` is the JavaScript value of
`server && server.listening` (null when the handle is null), and `port`
is `server.address().port` when the handle exists, else null. -/
def getStatus (s : SupState) : StatusSnapshot :=
  { isRunning := s.isRunning
    dohRunning := match s.dohServer with
      | none => .null
      | some sv => .bool sv.listening
    dohPort := s.dohServer.map Server.port
    dotRunning := match s.dotServer with
      | none => .null
      | some sv => .bool sv.listening
    dotPort := s.dotServer.map Server.port }

/-! ## DoH request adapter (`startDoH` request handler, lines 75-119) -/

/-- An HTTPS request as the handler sees it: `req.method`, `req.url`, and the
accumulated body bytes. -/
structure HttpReq where
  method : String
  url : String
  body : List Nat
deriving DecidableEq

/-- The handler's reply: an HTTP 200 carrying an encoded DNS message, or a
plain-text reply with a status code (`'Missing dns parameter'`, `'Not Found'`). -/
inductive DohResp where
  | dns (w : WireResponse)
  | text (status : Nat) (body : String)
deriving DecidableEq

/-- `url.startsWith(p)` on the raw request url. -/
def strStartsWith (s p : String) : Bool := List.isPrefixOf p.data s.data

/-- The query-string portion of a url: the characters after the first `?`,
or `none` when the url has no `?` (and hence no search parameters). -/
def afterQuestionMark : List Char → Option (List Char)
  | [] => none
  | c :: cs => if c = '?' then some cs else afterQuestionMark cs

/-- Split a query string into its `&`-separated pairs. -/
def splitOnAmp : List Char → List (List Char)
  | [] => [[]]
  | c :: cs =>
    let r := splitOnAmp cs
    if c = '&' then [] :: r
    else
      match r with
      | [] => [[c]]
      | g :: gs => (c :: g) :: gs

/-- The value a `k=v` pair contributes for `key`: the characters after the
first `=` (empty when no `=` follows the key), or `none` for other keys. -/
def paramValue (kv : List Char) (key : List Char) : Option (List Char) :=
  let k := kv.takeWhile (fun c => c ≠ '=')
  if k = key then some ((kv.drop k.length).drop 1) else none

/-- `url.searchParams.get(key)`: the value of the first `&`-separated pair of
the query string whose key is `key` (percent-decoding is irrelevant to the
urls considered here). -/
def getSearchParam (url key : String) : Option String :=
  match afterQuestionMark url.data with
  | none => none
  | some qs =>
    ((splitOnAmp qs).findSome? fun kv => paramValue kv key.data).map fun cs => String.mk cs

/-- The HTTP status of a handler reply (a `.dns` reply is written with 200). -/
def statusOf : DohResp → Nat
  | .dns _ => 200
  | .text s _ => s

/-- The DoH request handler (lines 75-119): `POST /dns-query` processes the
body; `GET` on a url starting with `/dns-query?` processes the base64-decoded
`dns` parameter, replying 400 when the parameter is absent or empty (an empty
string is falsy in `if (dnsParam)`); every other method/url pair replies 404. -/
def handleDoH (be : Backend) (b64 : String → List Nat)
    (decode : List Nat → Except Unit DnsQuery) (req : HttpReq) : DohResp :=
  if req.method = "POST" ∧ req.url = "/dns-query" then
    .dns (processDnsQuery be (decode req.body))
  else if req.method = "GET" ∧ strStartsWith req.url "/dns-query?" = true then
    match getSearchParam req.url "dns" with
    | some p =>
      if p ≠ "" then .dns (processDnsQuery be (decode (b64 p)))
      else .text 400 "Missing dns parameter"
    | none => .text 400 "Missing dns parameter"
  else .text 404 "Not Found"

/-! ## Concrete back ends used as test fixtures -/

/-- A back end whose every lookup rejects with the given error. -/
def errBackend (e : RErr) : Backend :=
  { resolve4 := fun _ => .error e
    resolve6 := fun _ => .error e
    resolveCname := fun _ => .error e
    resolveMx := fun _ => .error e
    resolveTxt := fun _ => .error e }

/-- A back end whose every lookup succeeds with fixed records. -/
def okBackend (ips : List String) : Backend :=
  { resolve4 := fun _ => .ok ips
    resolve6 := fun _ => .ok ips
    resolveCname := fun _ => .ok ips
    resolveMx := fun _ => .ok [(10, "mail.example.com")]
    resolveTxt := fun _ => .ok [["hello"]] }

/-! ## Stream framer lemmas -/

theorem drain_nil : drain [] = ([], []) := by
  simp [drain]

theorem drain_one (b : Nat) : drain [b] = ([], [b]) := by
  simp [drain]

theorem drain_cons_cons (b0 b1 : Nat) (rest : List Nat) :
    drain (b0 :: b1 :: rest) =
      if 256 * b0 + b1 ≤ rest.length then
        (rest.take (256 * b0 + b1) :: (drain (rest.drop (256 * b0 + b1))).1,
         (drain (rest.drop (256 * b0 + b1))).2)
      else ([], b0 :: b1 :: rest) := by
  rw [drain]

/-- Draining is insensitive to data arriving later: draining `buf ++ extra`
extracts first exactly the frames extracted from `buf`, then continues on the
leftover with `extra` appended. -/
theorem drain_append (buf extra : List Nat) :
    drain (buf ++ extra) =
      ((drain buf).1 ++ (drain ((drain buf).2 ++ extra)).1,
       (drain ((drain buf).2 ++ extra)).2) := by
  induction buf using drain.induct with
  | case1 b0 b1 rest hle ih =>
    rw [List.cons_append, List.cons_append, drain_cons_cons]
    rw [drain_cons_cons b0 b1 rest, if_pos hle]
    have hle2 : 256 * b0 + b1 ≤ (rest ++ extra).length := by
      simp [List.length_append]; omega
    rw [if_pos hle2]
    rw [List.take_append_of_le_length hle, List.drop_append_of_le_length hle]
    rw [ih]
    simp
  | case2 b0 b1 rest hle =>
    rw [drain_cons_cons b0 b1 rest, if_neg hle]
    simp
  | case3 l h =>
    match l, h with
    | [], _ => simp [drain_nil]
    | [b], _ => simp [drain_one]
    | b0 :: b1 :: rest, h => exact absurd rfl (h b0 b1 rest)

/-- Draining a stream of correctly framed messages yields exactly those
messages, with an empty leftover. -/
theorem drain_frames (msgs : List (List Nat)) :
    drain ((msgs.map frame).flatten) = (msgs, []) := by
  induction msgs with
  | nil => simp [drain_nil]
  | cons m ms ih =>
    have hjoin : (((m :: ms).map frame).flatten) =
        (m.length / 256) :: (m.length % 256) :: (m ++ ((ms.map frame).flatten)) := by
      simp [frame]
    rw [hjoin, drain_cons_cons]
    have hlen : 256 * (m.length / 256) + m.length % 256 = m.length := by
      have := Nat.div_add_mod m.length 256
      omega
    rw [hlen]
    have hle : m.length ≤ (m ++ ((ms.map frame).flatten)).length := by
      simp [List.length_append]
    rw [if_pos hle]
    rw [List.take_left, List.drop_left, ih]

theorem drain_leftover (buf : List Nat) : noCompleteFrame (drain buf).2 := by
  induction buf using drain.induct with
  | case1 b0 b1 rest hle ih =>
    rw [drain_cons_cons, if_pos hle]
    exact ih
  | case2 b0 b1 rest hle =>
    rw [drain_cons_cons, if_neg hle]
    simp only [noCompleteFrame]
    omega
  | case3 l h =>
    match l, h with
    | [], _ => rw [drain_nil]; trivial
    | [b], _ => rw [drain_one]; trivial
    | b0 :: b1 :: rest, h => exact absurd rfl (h b0 b1 rest)

theorem drain_of_noCompleteFrame (r : List Nat) (h : noCompleteFrame r) :
    drain r = ([], r) := by
  match r, h with
  | [], _ => exact drain_nil
  | [b], _ => exact drain_one b
  | b0 :: b1 :: rest, h =>
    rw [drain_cons_cons, if_neg]
    simp only [noCompleteFrame] at h
    omega

/-- Feeding chunks one at a time extracts the same frames as draining the
whole concatenation, provided the starting buffer holds no complete frame. -/
theorem feedChunks_eq_drain (cs : List (List Nat)) (buf : List Nat)
    (h : drain buf = ([], buf)) :
    feedChunks buf cs = drain (buf ++ cs.flatten) := by
  induction cs generalizing buf with
  | nil => simp [feedChunks, h]
  | cons c cs ih =>
    simp only [feedChunks]
    rw [ih _ (drain_of_noCompleteFrame _ (drain_leftover (buf ++ c)))]
    rw [List.flatten_cons, ← List.append_assoc]
    rw [drain_append (buf ++ c) cs.flatten]

theorem respondFrames_ok (be : Backend) (decode : List Nat → Except Unit DnsQuery)
    (fs : List (List Nat)) :
    respondFrames be decode fs = .ok (fs.map fun f => processDnsQuery be (decode f)) := by
  induction fs with
  | nil => rfl
  | cons f fs ih =>
    simp only [respondFrames, ih]
    rfl

/-! ## Claims -/

/-- C2: for every byte stream formed by concatenating correctly
2-byte-big-endian-length-prefixed DNS messages, and for every way of splitting
that stream into data chunks delivered in order, the DoT stream framer
(`feedChunks` starting from the fresh connection's empty buffer) extracts
exactly the original payloads, in the original order, with nothing left over —
independent of the chunk boundaries. -/
theorem dot_framer_chunk_invariant (msgs chunks : List (List Nat))
    (_hlen : ∀ m ∈ msgs, m.length < 65536)
    (hsplit : chunks.flatten = (msgs.map frame).flatten) :
    feedChunks [] chunks = (msgs, []) := by
  rw [feedChunks_eq_drain chunks [] drain_nil]
  rw [List.nil_append, hsplit, drain_frames]

theorem dot_framer_chunk_invariant_witness :
    (∀ m ∈ [[1, 2, 3], [4]], List.length m < 65536) ∧
    feedChunks [] [[0], [3, 1], [2, 3, 0, 1, 4]] = ([[1, 2, 3], [4]], []) :=
  ⟨by decide,
   dot_framer_chunk_invariant [[1, 2, 3], [4]] [[0], [3, 1], [2, 3, 0, 1, 4]]
     (by decide) (by decide)⟩

/-- C10: after the DoT data-handler loop finishes processing any inbound chunk
appended to any retained buffer, the new retained buffer contains no complete
frame: either fewer than 2 bytes remain, or fewer payload bytes are buffered
than the 16-bit big-endian length prefix at its start announces. -/
theorem dot_buffer_no_complete_frame (buf chunk : List Nat) :
    noCompleteFrame (drain (buf ++ chunk)).2 :=
  drain_leftover (buf ++ chunk)

/-- C9: the DoT data handler's processing of the frames of a chunk always
succeeds — `processDnsQuery` is total, converting decode and resolution
failures internally, so the handler's `catch` branch (which would terminate
the connection) is never reached by a protocol-level error, and one response
is produced per extracted frame. -/
theorem process_dns_query_total (be : Backend)
    (decode : List Nat → Except Unit DnsQuery) (buf chunk : List Nat) :
    dotHandleChunk be decode buf chunk =
      .ok ((drain (buf ++ chunk)).2,
           (drain (buf ++ chunk)).1.map fun f => processDnsQuery be (decode f)) := by
  unfold dotHandleChunk
  rw [respondFrames_ok]

/-- C1 (code bug): for a decoded query whose only question the back end
reports as nonexistent, the question loop does record the intended NXDOMAIN
(`query.rcode = 3`), and the encoded response has an empty answer section and
preserves the query's transaction id and question list — but the response
literal handed to the encoder carries no `rcode` property, so the encoded
response's response code is NOERROR (0), not NXDOMAIN (3) as the claim (and
the code's own `// return NXDOMAIN` comment) require. -/
theorem nxdomain_never_reaches_response :
    processDnsQuery (errBackend .notFound) (.ok ⟨7, [⟨"example.com", .A⟩]⟩) =
      { id := 7, qr := true, rd := true, ra := true, rcode := 0,
        questions := [⟨"example.com", .A⟩], answers := [] } ∧
    (processQuestions (errBackend .notFound) [⟨"example.com", .A⟩]).2 = 3 := by
  constructor
  · rfl
  · rfl

/-- C3 counterexample: an input on which an unexpected internal (non-not-found)
back-end error occurs during processing of a successfully decoded query: the
response's response code is 0, not SERVFAIL (2) — the inner `catch` conflates
the unexpected error with not-found instead of surfacing SERVFAIL. -/
theorem servfail_claim_counterexample :
    (processDnsQuery (errBackend .internal) (.ok ⟨9, [⟨"example.com", .A⟩]⟩)).rcode = 0 ∧
    (0 : Nat) ≠ 2 := by
  constructor
  · rfl
  · decide

/-- C3 (amended): the catch-all SERVFAIL response (id 0, empty question and
answer sections) is produced exactly when decoding the input failed; whenever
decoding succeeded, the response echoes the decoded query's id and is never
SERVFAIL — an unexpected back-end error during resolution is conflated with
not-found by the inner catch and does not produce SERVFAIL. -/
theorem servfail_only_on_decode_failure (be : Backend) (dr : Except Unit DnsQuery) :
    (∀ e : Unit, dr = .error e →
      processDnsQuery be dr =
        { id := 0, qr := true, rd := true, ra := true, rcode := 2,
          questions := [], answers := [] }) ∧
    (∀ q : DnsQuery, dr = .ok q →
      (processDnsQuery be dr).id = q.id ∧ (processDnsQuery be dr).rcode = 0) := by
  constructor
  · rintro e rfl
    rfl
  · rintro q rfl
    exact ⟨rfl, rfl⟩

theorem servfail_only_on_decode_failure_witness :
    processDnsQuery (errBackend .internal) (.error ()) =
      { id := 0, qr := true, rd := true, ra := true, rcode := 2,
        questions := [], answers := [] } ∧
    (processDnsQuery (errBackend .internal) (.ok ⟨9, []⟩)).id = 9 :=
  ⟨(servfail_only_on_decode_failure (errBackend .internal) (.error ())).1 () rfl,
   ((servfail_only_on_decode_failure (errBackend .internal) (.ok ⟨9, []⟩)).2 ⟨9, []⟩ rfl).1⟩

/-- C6: every response the service encodes with a non-zero response code has
an empty answer list — the success-path literal always encodes response code
0, and the only non-zero response code (the catch path's SERVFAIL) is encoded
with an empty answer list. -/
theorem nonzero_rcode_empty_answers (be : Backend) (dr : Except Unit DnsQuery)
    (h : (processDnsQuery be dr).rcode ≠ 0) :
    (processDnsQuery be dr).answers = [] := by
  cases dr with
  | error e => rfl
  | ok q => exact absurd rfl h

theorem nonzero_rcode_empty_answers_witness :
    (processDnsQuery (errBackend .notFound) (.error ())).rcode ≠ 0 ∧
    (processDnsQuery (errBackend .notFound) (.error ())).answers = [] :=
  ⟨by decide, nonzero_rcode_empty_answers (errBackend .notFound) (.error ()) (by decide)⟩

/-- Helper: a successful lookup mapped through an answer builder whose every
answer has ttl 300 yields only answers with ttl 300. -/
theorem ttl_of_mapped {α : Type} (lookup : Except RErr (List α)) (g : α → RR) (rs : List RR)
    (hg : ∀ a, (g a).ttl = 300)
    (h : lookup.map (List.map g) = .ok rs) : ∀ rr ∈ rs, rr.ttl = 300 := by
  cases lookup with
  | error e => simp [Except.map] at h
  | ok recs =>
    simp only [Except.map, Except.ok.injEq] at h
    subst h
    intro rr hrr
    simp only [List.mem_map] at hrr
    obtain ⟨r, _, rfl⟩ := hrr
    exact hg r

/-- C8: every answer record the resolution adapter produces from a successful
lookup carries ttl 300 (the fixed `ttl: 300` of each `switch` branch), and a
question of unsupported type contributes an empty answer set while the loop
continues with the remaining questions unchanged. -/
theorem resolution_ttl300_and_unsupported_skip (be : Backend) :
    (∀ q rs, resolveQuestion be q = .ok rs → ∀ rr ∈ rs, rr.ttl = 300) ∧
    (∀ name s qs, processQuestions be (⟨name, .OTHER s⟩ :: qs) =
      processQuestions be qs) := by
  constructor
  · intro q rs h
    obtain ⟨name, t⟩ := q
    cases t with
    | A =>
      simp only [resolveQuestion] at h
      exact ttl_of_mapped _ _ _ (fun a => rfl) h
    | AAAA =>
      simp only [resolveQuestion] at h
      exact ttl_of_mapped _ _ _ (fun a => rfl) h
    | CNAME =>
      simp only [resolveQuestion] at h
      exact ttl_of_mapped _ _ _ (fun a => rfl) h
    | MX =>
      simp only [resolveQuestion] at h
      exact ttl_of_mapped _ _ _ (fun a => rfl) h
    | TXT =>
      simp only [resolveQuestion] at h
      exact ttl_of_mapped _ _ _ (fun a => rfl) h
    | OTHER s =>
      simp only [resolveQuestion, Except.ok.injEq] at h
      subst h
      intro rr hrr
      simp at hrr
  · intro name s qs
    simp [processQuestions, resolveQuestion]

theorem resolution_ttl300_and_unsupported_skip_witness :
    resolveQuestion (okBackend ["1.2.3.4"]) ⟨"example.com", .A⟩ =
      .ok [{ name := "example.com", rtype := .A, rclass := "IN", ttl := 300,
             data := .str "1.2.3.4" }] ∧
    (∀ rr ∈ [({ name := "example.com", rtype := .A, rclass := "IN", ttl := 300,
                data := .str "1.2.3.4" } : RR)], rr.ttl = 300) ∧
    processQuestions (okBackend ["1.2.3.4"]) [⟨"ex.org", .OTHER "TYPE65"⟩, ⟨"example.com", .A⟩] =
      processQuestions (okBackend ["1.2.3.4"]) [⟨"example.com", .A⟩] :=
  ⟨rfl,
   (resolution_ttl300_and_unsupported_skip (okBackend ["1.2.3.4"])).1
     ⟨"example.com", .A⟩ _ rfl,
   (resolution_ttl300_and_unsupported_skip (okBackend ["1.2.3.4"])).2
     "ex.org" "TYPE65" [⟨"example.com", .A⟩]⟩

/-- C4 counterexample: with both listeners enabled, DoH certificates present
but the DoH `listen` failing, `start()` rethrows and `startDoT` is never
invoked — refuting the claim that each enabled listener is attempted
regardless of the other's startup failure. -/
theorem doh_failure_skips_dot_counterexample :
    (start ⟨true, true⟩ ⟨8443, true, false⟩ ⟨853, true, true⟩ {}).dotAttempted = false ∧
    (start ⟨true, true⟩ ⟨8443, true, false⟩ ⟨853, true, true⟩ {}).threw = true := by
  constructor
  · rfl
  · rfl

/-- C4 (amended): a DoH startup (bind) failure makes `start()` rethrow
before `startDoT` is ever attempted: the listeners are started sequentially
and the first failure aborts the whole start instead of being reported
independently. -/
theorem start_aborts_on_doh_bind_failure (st : ResolverSettings)
    (dohCfg dotCfg : ListenerConfig) (s0 : SupState) (h1 : st.dohEnabled = true)
    (h2 : dohCfg.certsExist = true) (h3 : dohCfg.listenOk = false) :
    (start st dohCfg dotCfg s0).threw = true ∧
    (start st dohCfg dotCfg s0).dotAttempted = false := by
  simp [start, startDoH, h1, h2, h3]

theorem start_aborts_on_doh_bind_failure_witness :
    (start ⟨true, true⟩ ⟨8443, true, false⟩ ⟨853, false, true⟩ {}).threw = true ∧
    (start ⟨true, true⟩ ⟨8443, true, false⟩ ⟨853, false, true⟩ {}).dotAttempted = false :=
  start_aborts_on_doh_bind_failure ⟨true, true⟩ ⟨8443, true, false⟩ ⟨853, false, true⟩ {}
    rfl rfl rfl

/-- C5 counterexample: with DoH enabled but its certificate files absent,
after `start()` the status field `doh.running` is the JavaScript value
`null` (`this.dohServer && this.dohServer.listening` with a null handle),
which is not strictly equal to the boolean `false` as the claim requires. -/
theorem doh_running_null_counterexample :
    (getStatus (start ⟨true, true⟩ ⟨8443, false, true⟩ ⟨853, true, true⟩ {}).state).dohRunning =
      JsVal.null ∧
    JsVal.null ≠ JsVal.bool false := by
  constructor
  · rfl
  · decide

/-- C5 (amended): with DoH enabled but its certificate or key file absent,
`start()` skips the DoH listener without error (it throws only if DoT's own
startup fails), still attempts DoT exactly when DoT is enabled, and afterwards
`status().doh.running` is the falsy JavaScript value `null` — not the boolean
`false` — because the DoH server handle was never created. -/
theorem doh_cert_missing_skips (st : ResolverSettings) (dohCfg dotCfg : ListenerConfig)
    (s0 : SupState) (h1 : st.dohEnabled = true) (h2 : dohCfg.certsExist = false)
    (h3 : s0.dohServer = none) :
    (start st dohCfg dotCfg s0).dohAttempted = true ∧
    (start st dohCfg dotCfg s0).dotAttempted = st.dotEnabled ∧
    (st.dotEnabled = false ∨ dotCfg.certsExist = false ∨ dotCfg.listenOk = true →
      (start st dohCfg dotCfg s0).threw = false) ∧
    (getStatus (start st dohCfg dotCfg s0).state).dohRunning = JsVal.null := by
  cases hdot : st.dotEnabled <;> cases hce : dotCfg.certsExist <;>
    cases hlo : dotCfg.listenOk <;>
    simp [start, startDoH, startDoT, getStatus, h1, h2, h3, hdot, hce, hlo]

theorem doh_cert_missing_skips_witness :
    (start ⟨true, true⟩ ⟨8443, false, true⟩ ⟨853, true, true⟩ {}).dohAttempted = true ∧
    (start ⟨true, true⟩ ⟨8443, false, true⟩ ⟨853, true, true⟩ {}).dotAttempted = true ∧
    (start ⟨true, true⟩ ⟨8443, false, true⟩ ⟨853, true, true⟩ {}).threw = false ∧
    (getStatus (start ⟨true, true⟩ ⟨8443, false, true⟩ ⟨853, true, true⟩ {}).state).dohRunning =
      JsVal.null :=
  let T := doh_cert_missing_skips ⟨true, true⟩ ⟨8443, false, true⟩ ⟨853, true, true⟩ {}
    rfl rfl rfl
  ⟨T.1, T.2.1, T.2.2.1 (Or.inr (Or.inr rfl)), T.2.2.2⟩

/-- C7 counterexample: a GET request to the exact path `/dns-query` with no
query string at all lacks the `dns` parameter, yet the handler replies 404
(the GET branch requires the url to start with `/dns-query?`), not the 400
the claim requires for every GET to that path lacking the parameter. -/
theorem get_no_query_string_counterexample :
    handleDoH (errBackend .notFound) (fun _ => []) (fun _ => .error ())
      ⟨"GET", "/dns-query", []⟩ = .text 404 "Not Found" ∧
    (404 : Nat) ≠ 400 := by
  constructor
  · rfl
  · decide

/-- C7 (amended): a GET whose url starts with `/dns-query?` but whose `dns`
search parameter is absent or empty gets HTTP 400 with the plain-text body
`Missing dns parameter` (not a DNS message); a request that is neither
`POST /dns-query` nor a GET with a url starting with `/dns-query?` — which
includes `GET /dns-query` without a query string — gets HTTP 404. -/
theorem doh_routing (be : Backend) (b64 : String → List Nat)
    (decode : List Nat → Except Unit DnsQuery) (req : HttpReq) :
    (req.method = "GET" → strStartsWith req.url "/dns-query?" = true →
      (getSearchParam req.url "dns" = none ∨ getSearchParam req.url "dns" = some "") →
      handleDoH be b64 decode req = .text 400 "Missing dns parameter") ∧
    (¬(req.method = "POST" ∧ req.url = "/dns-query") →
      ¬(req.method = "GET" ∧ strStartsWith req.url "/dns-query?" = true) →
      handleDoH be b64 decode req = .text 404 "Not Found") := by
  constructor
  · intro hm hs hp
    have hnp : ¬(req.method = "POST" ∧ req.url = "/dns-query") := by
      rintro ⟨hpost, _⟩
      rw [hm] at hpost
      exact absurd hpost (by decide)
    unfold handleDoH
    rw [if_neg hnp, if_pos ⟨hm, hs⟩]
    rcases hp with hp | hp <;> rw [hp] <;> rfl
  · intro h1 h2
    unfold handleDoH
    rw [if_neg h1, if_neg h2]

theorem doh_routing_witness :
    handleDoH (errBackend .notFound) (fun _ => []) (fun _ => .error ())
      ⟨"GET", "/dns-query?foo=1", []⟩ = .text 400 "Missing dns parameter" ∧
    handleDoH (errBackend .notFound) (fun _ => []) (fun _ => .error ())
      ⟨"PUT", "/status", []⟩ = .text 404 "Not Found" :=
  ⟨(doh_routing (errBackend .notFound) (fun _ => []) (fun _ => .error ())
      ⟨"GET", "/dns-query?foo=1", []⟩).1 rfl (by decide) (Or.inl (by decide)),
   (doh_routing (errBackend .notFound) (fun _ => []) (fun _ => .error ())
      ⟨"PUT", "/status", []⟩).2 (by decide) (by decide)⟩

end NdashBind
